import Mathlib

/-!
# Verification of the backup/redo versioning, snippet patching and
# scan/replace pipeline of the Code Assistant Formatter

This file gives a shallow embedding of the core of the repository
(`utils.py`, `app.py`, `threads.py`, `formatter_utils.py`, `ast_utils.py`)
and proves or refutes the specification claims about it.

Modelling conventions:
* All state touched by the versioning scheme for one tracked file — the
  on-disk file itself, its central `.bak` slot and its central `.redo`
  slot — is a `VState`.  `get_central_backup_paths` maps distinct
  original paths to distinct slot paths deterministically, so a
  single-file state is faithful for the per-file claims.
* Permission probes (`os.access`) are modelled as always granting
  access, i.e. the embedding follows the success path of every
  permission check; the claims under consideration do not quantify over
  permission failures.
* External collaborators (the Black subprocess, `re.sub`, `difflib`)
  are abstract function parameters, exactly as the spec treats them.
-/

namespace CodeAssistant

/-- The per-tracked-file state: the original file's content (if the file
exists on disk), the central backup (`.bak`) slot and the central redo
(`.redo`) slot, each `none` when the corresponding file is absent. -/
structure VState where
  file : Option String
  bak : Option String
  redo : Option String
  deriving DecidableEq, Repr

/-- `utils.backup_and_redo` (utils.py lines 207-280), success path.
Step 2: if the `.redo` file exists it is moved (`os.replace`) onto the
`.bak` file, overwriting any existing backup and emptying the redo slot.
Step 3: if the original file does not exist the function returns success
with no redo state created; otherwise the current on-disk content of the
original file is copied (`shutil.copy2`) into the `.redo` slot. -/
def backup_and_redo (s : VState) : VState × Bool :=
  let s1 : VState :=
    match s.redo with
    | some r => { s with bak := some r, redo := none }
    | none => s
  match s1.file with
  | none => (s1, true)
  | some c => ({ s1 with redo := some c }, true)

/-- `utils.safe_write_file` on the tracked file, success path: the file's
content becomes the given text. -/
def writeFile (s : VState) (content : String) : VState :=
  { s with file := some content }

/-- `App.undo_change` (app.py lines 1075-1130), success path.  If no
central `.bak` file exists the action reports "Undo Unavailable" and
changes nothing.  Otherwise it first calls `backup_and_redo` on the
original file (rotating the slots) and then copies the `.bak` file —
as it stands after that rotation — onto the original file. -/
def undo_change (s : VState) : VState :=
  match s.bak with
  | none => s
  | some _ =>
    let s1 := (backup_and_redo s).1
    match s1.bak with
    | some b => { s1 with file := some b }
    | none => s1

/-- `App.redo_change` (app.py lines 1132-1202), success path.  If no
central `.redo` file exists the action reports "Redo Unavailable" and
changes nothing.  Otherwise, when the original file exists its current
content is copied onto the `.bak` file, and then the `.redo` content is
copied onto the original file (the redo slot itself is kept). -/
def redo_change (s : VState) : VState :=
  match s.redo with
  | none => s
  | some r =>
    let s1 : VState :=
      match s.file with
      | some c => { s with bak := some c }
      | none => s
    { s1 with file := some r }

/-! ## Snippet patch application (`App.apply_snippet_patch`) -/

/-- Helper for `readlines`: accumulates the current line (reversed) and
splits after every newline character, keeping the newline. -/
def readlinesAux : List Char → List Char → List String
  | [], [] => []
  | [], acc => [String.mk acc.reverse]
  | c :: rest, acc =>
    if c = '\n' then String.mk (acc.reverse ++ ['\n']) :: readlinesAux rest []
    else readlinesAux rest (c :: acc)

/-- Python `f.readlines()` on a text stream: the content split after each
newline character, line terminators kept, final line possibly
unterminated.  (The universal-newline translation performed by the text
layer of `open` is part of the read collaborator, outside this model, so
lines are delimited by the single character `\n` here.) -/
def readlines (s : String) : List String :=
  readlinesAux s.data []

/-- The `_pending_patch_info` dictionary built by
`App.preview_snippet_change` (app.py line 1016): the 0-based inclusive
start, the exclusive end, and the replacement snippet lines.  The line
indices are integers (`lineno - 1` may in principle be negative, and the
apply-time check explicitly guards `start_line < 0`). -/
structure PendingPatch where
  start_line : Int
  end_line : Int
  snippet_lines : List String
  deriving DecidableEq, Repr

/-- The application state relevant to `apply_snippet_patch`: the target
file's versioning state and the single pending-patch slot. -/
structure AppState where
  fs : VState
  pending : Option PendingPatch
  deriving DecidableEq, Repr

/-- Outcome of `App.apply_snippet_patch`, mirroring its message boxes:
no pending patch, read failure, "Patch Index Error", or success. -/
inductive ApplyResult where
  | noPending
  | readError
  | patchIndexError
  | success
  deriving DecidableEq, Repr

/-- `App.apply_snippet_patch` (app.py lines 1026-1051), with the backup
and write collaborators on their success paths.  With a pending patch it
(1) calls `backup_and_redo` on the target, (2) re-reads the target's raw
lines, (3) re-validates `start_line < 0 or end_line > len(lines) or
start_line > end_line` — failing with a Patch Index Error and writing
nothing, (4) otherwise splices
`lines[:start] + [l + os.linesep for l in snippet] + lines[end:]`,
joins and writes.  The `finally` block clears the pending-patch slot on
every path through the `try`. -/
def apply_snippet_patch (linesep : String) (st : AppState) : AppState × ApplyResult :=
  match st.pending with
  | none => (st, .noPending)
  | some p =>
    let fs1 := (backup_and_redo st.fs).1
    match fs1.file with
    | none => ({ fs := fs1, pending := none }, .readError)
    | some content =>
      let lines := readlines content
      if p.start_line < 0 ∨ (lines.length : Int) < p.end_line ∨ p.end_line < p.start_line then
        ({ fs := fs1, pending := none }, .patchIndexError)
      else
        let linesBefore := lines.take p.start_line.toNat
        let snippetWithNl := p.snippet_lines.map (fun l => l ++ linesep)
        let linesAfter := lines.drop p.end_line.toNat
        let newContent := String.join (linesBefore ++ snippetWithNl ++ linesAfter)
        ({ fs := writeFile fs1 newContent, pending := none }, .success)

/-! ## Python string primitives used by `formatter_utils.py` -/

/-- Fuelled scanner for Python `str.replace` with a non-empty pattern:
leftmost, non-overlapping occurrences of `pat` are replaced by `rep`.
Each step consumes at least one character, so fuel `s.length` is always
enough; the fuel-exhausted branch is unreachable at that fuel. -/
def replaceFuel (pat rep : List Char) : Nat → List Char → List Char
  | 0, s => s
  | _ + 1, [] => []
  | n + 1, c :: rest =>
    if pat.isPrefixOf (c :: rest) then rep ++ replaceFuel pat rep n ((c :: rest).drop pat.length)
    else c :: replaceFuel pat rep n rest

/-- Python `str.replace(old, new)`.  For an empty `old`, Python inserts
`new` before every character and once at the end
(`"ab".replace("", "-") = "-a-b-"`); otherwise leftmost non-overlapping
occurrences are replaced. -/
def pyReplace (s pat rep : String) : String :=
  if pat = "" then rep ++ String.join (s.data.map fun c => String.mk [c] ++ rep)
  else String.mk (replaceFuel pat.data rep.data s.length s.data)

/-- The characters Python's `str.strip()` removes (the ASCII whitespace
class; the non-breaking space has already been replaced by the cleaning
step before any `strip` in this code base). -/
def isPyWhitespace (c : Char) : Bool :=
  c = ' ' ∨ c = '\t' ∨ c = '\n' ∨ c = '\r' ∨ c = Char.ofNat 11 ∨ c = Char.ofNat 12

/-- Python `str.strip()`: leading and trailing whitespace removed. -/
def pyStrip (s : String) : String :=
  String.mk (((s.data.dropWhile isPyWhitespace).reverse.dropWhile isPyWhitespace).reverse)

/-- Helper for `splitNl`: split a character list on `\n` (separator not
kept), Python `text.split("\n")`. -/
def splitNlAux : List Char → List Char → List String
  | [], acc => [String.mk acc.reverse]
  | c :: rest, acc =>
    if c = '\n' then String.mk acc.reverse :: splitNlAux rest []
    else splitNlAux rest (c :: acc)

/-- Python `text.split("\n")`. -/
def splitNl (s : String) : List String :=
  splitNlAux s.data []

/-- Python `"\n".join(lines)`. -/
def joinNl : List String → String
  | [] => ""
  | [l] => l
  | l :: rest => l ++ "\n" ++ joinNl rest

/-- `formatter_utils.clean_chat_paste` (formatter_utils.py lines 12-48):
non-breaking spaces to spaces, smart double and single quotes to ASCII
quotes, CRLF and CR to LF, then strip the whole block. -/
def clean_chat_paste (code : String) : String :=
  let c1 := pyReplace code (String.mk [Char.ofNat 0xA0]) " "
  let c2 := pyReplace c1 (String.mk [Char.ofNat 0x201C]) "\""
  let c3 := pyReplace c2 (String.mk [Char.ofNat 0x201D]) "\""
  let c4 := pyReplace c3 (String.mk [Char.ofNat 0x2018]) (String.mk [Char.ofNat 39])
  let c5 := pyReplace c4 (String.mk [Char.ofNat 0x2019]) (String.mk [Char.ofNat 39])
  let c6 := pyReplace c5 "\r\n" "\n"
  let c7 := pyReplace c6 "\r" "\n"
  pyStrip c7

/-- Space or horizontal tab, the characters `textwrap.dedent` treats as
indentation (`[ \t]`). -/
def isSpaceTab (c : Char) : Bool :=
  c = ' ' ∨ c = '\t'

/-- Longest common leading run of two character lists; this is what the
margin-merging loop of `textwrap.dedent` computes. -/
def commonStem : List Char → List Char → List Char
  | a :: as, b :: bs => if a = b then a :: commonStem as bs else []
  | _, _ => []

/-- CPython `textwrap.dedent`: lines consisting solely of spaces and
tabs are normalised to empty lines; the margin is the longest common
leading whitespace of all remaining lines that contain a
non-whitespace character; that margin is then removed from the start of
every line that begins with it. -/
def dedent (text : String) : String :=
  let lines := (splitNl text).map fun l =>
    if l ≠ "" ∧ l.data.all isSpaceTab then "" else l
  let indents := lines.filterMap fun l =>
    if (l.data.dropWhile isSpaceTab).isEmpty then none
    else some (l.data.takeWhile isSpaceTab)
  let margin :=
    match indents with
    | [] => []
    | i :: rest => rest.foldl commonStem i
  joinNl (lines.map fun l =>
    if margin.isPrefixOf l.data then String.mk (l.data.drop margin.length) else l)

/-- `formatter_utils.normalize_indentation` (formatter_utils.py lines
51-79): `textwrap.dedent` followed by replacing each remaining tab with
four spaces (the default `indent_width`). -/
def normalize_indentation (code : String) : String :=
  pyReplace (dedent code) "\t" "    "

/-- `formatter_utils.preprocess_and_format_with_black` (formatter_utils.py
lines 81-190).  The Black subprocess is the abstract collaborator
`black`; `Except.error e` models a non-zero exit, timeout or launch
failure with message `e`.  The function cleans chat artifacts,
normalises indentation, short-circuits on blank input, and on Black
failure returns the preprocessed code together with the error; on
success it returns Black's output.  (The `except` fallbacks around the
two pure preprocessing steps are unreachable for pure functions.) -/
def preprocess_and_format_with_black (black : String → Except String String)
    (code : String) : String × Option String :=
  let cleaned := clean_chat_paste code
  let processed := normalize_indentation cleaned
  if pyStrip processed = "" then (processed, none)
  else
    match black processed with
    | .ok out => (out, none)
    | .error e => (processed, some e)

/-! ## The replace pipeline (`threads.ReplacementThread`) -/

/-- `ReplacementThread._apply_replacement` (threads.py lines 375-393).
Regex substitution is the abstract collaborator `regexSub` (pattern,
replacement, content); `Except.error e` models `re.error`, producing
the "Invalid regex pattern" error with the content unchanged.  Literal
mode is Python `str.replace` and never errors. -/
def applyReplacement (regexSub : String → String → String → Except String String)
    (content pattern replacement : String) (useRegex : Bool) : String × Option String :=
  if useRegex then
    match regexSub pattern replacement content with
    | .ok m => (m, none)
    | .error e => (content, some ("Invalid regex pattern: " ++ e))
  else (pyReplace content pattern replacement, none)

/-- Step 2 of `ReplacementThread.run` (threads.py lines 212-231): the
find/replace step runs only when the pattern is non-empty (`if
self.pattern:`); on a replacement error the content falls back to the
original.  Returns the content handed on to the formatting step and the
replacement error, if any. -/
def replaceStep (regexSub : String → String → String → Except String String)
    (pattern replacement : String) (useRegex : Bool) (original : String) :
    String × Option String :=
  if pattern ≠ "" then
    let (m, err) := applyReplacement regexSub original pattern replacement useRegex
    match err with
    | some e => (original, some e)
    | none => (m, none)
  else (original, none)

/-- What `ReplacementThread.run` produces for one file: the resulting
versioning state of that file, the single progress-log message emitted
for it, whether the file was written, and the `error_occurred` emissions
in order. -/
structure FileOutcome where
  vstate : VState
  message : String
  wrote : Bool
  errors : List String
  deriving DecidableEq, Repr

/-- Steps 4 and 5 of the per-file body of `ReplacementThread.run`
(threads.py lines 259-339), given the original content, the replacement
error (if any), the final content produced by step 3 and the format
error (if any).  On a content change: snapshot via `backup_and_redo`,
diff for the log, write, and an `[Updated...]` status whose
replace-error variant overrides the format-warning variant.  On
equality: no snapshot and no write, with the `[No change]` message only
when no earlier warning was logged.  The accumulated log message and
the `error_occurred` emissions mirror the per-file variables of the
source. -/
def processFormatted (diffFn : String → String → String) (fileName original : String)
    (replacementError : Option String) (final : String) (formatErrorMsg : Option String)
    (s : VState) : FileOutcome :=
  let logAfterReplace :=
    match replacementError with
    | some e => "[Replace Error] " ++ fileName ++ ": " ++ e
    | none => ""
  let errsAfterReplace :=
    match replacementError with
    | some e => ["[Replace Error] " ++ fileName ++ ": " ++ e]
    | none => []
  let formatTag :=
    match formatErrorMsg with
    | some e =>
      some ("[Format Warning] " ++ fileName ++ ": Preprocessing/Black formatting failed: " ++ e)
    | none => none
  let logAfterFormat :=
    match formatTag with
    | some t => if logAfterReplace ≠ "" then logAfterReplace ++ "\n" ++ t else t
    | none => logAfterReplace
  let errsAfterFormat :=
    match formatTag with
    | some t => errsAfterReplace ++ [t]
    | none => errsAfterReplace
  if original ≠ final then
    let s1 := (backup_and_redo s).1
    let diffStr := diffFn original final
    let s2 := writeFile s1 final
    let status :=
      if replacementError.isSome then "[Updated with Replace Error]"
      else if formatErrorMsg.isSome then "[Updated with Format Warning]"
      else "[Updated]"
    { vstate := s2, message := status ++ " " ++ fileName ++ "\nDiff:\n" ++ diffStr,
      wrote := true, errors := errsAfterFormat }
  else
    let msg :=
      if logAfterFormat = "" then "[No change] " ++ fileName
      else logAfterFormat ++ "\n[Info] No effective change for " ++ fileName ++
        " despite previous warnings."
    { vstate := s, message := msg, wrote := false, errors := errsAfterFormat }

/-- The per-file body of `ReplacementThread.run` (threads.py lines
179-339) for one file, with the Black collaborator `black`, the regex
collaborator `regexSub` and the unified-diff renderer `diffFn`
(`difflib.unified_diff`) abstract, and the backup and write
collaborators on their success paths.  A missing file is the read-error
path (skip, error emission, progress record); otherwise: the optional
find/replace step (`replaceStep`), preprocessing plus Black, then the
change check, snapshot, write and per-file reporting
(`processFormatted`). -/
def processFile (black : String → Except String String)
    (regexSub : String → String → String → Except String String)
    (diffFn : String → String → String)
    (pattern replacement : String) (useRegex : Bool)
    (fileName : String) (s : VState) : FileOutcome :=
  match s.file with
  | none =>
    let msg := "[Read Error] " ++ fileName ++ ": File not found: " ++ fileName
    { vstate := s, message := msg, wrote := false, errors := [msg] }
  | some original =>
    let mr := replaceStep regexSub pattern replacement useRegex original
    let fr := preprocess_and_format_with_black black mr.1
    processFormatted diffFn fileName original mr.2 fr.1 fr.2 s

/-! ## The scan pipeline (`threads.FileLoaderThread`) -/

/-- One entry yielded by `folder.rglob("*.py")`: its path, whether it is
a regular file, and whether it is readable (`os.access(..., R_OK)`). -/
structure ScanEntry where
  path : String
  isFile : Bool
  readable : Bool
  deriving DecidableEq, Repr

/-- The accumulation loop of `FileLoaderThread.run` (threads.py lines
82-114).  `running i` is the state of the cooperative `_is_running`
flag as read by the check at the top of the `i`-th iteration; a `false`
reading breaks out of the loop.  An entry is accumulated when it is a
readable regular file; non-files and unreadable files are soft-skipped.
The accumulated list so far is what `files_loaded` finally emits, on
the cancelled path and on the normal path alike. -/
def scanRunAux (running : Nat → Bool) : List ScanEntry → Nat → List String → List String
  | [], _, acc => acc
  | e :: rest, i, acc =>
    if running i = false then acc
    else
      let acc' := if e.isFile ∧ e.readable then acc ++ [e.path] else acc
      scanRunAux running rest (i + 1) acc'

/-- `FileLoaderThread.run` restricted to its iteration loop: the list it
emits via `files_loaded` given the discovered entries and the flag
history. -/
def fileLoaderRun (running : Nat → Bool) (entries : List ScanEntry) : List String :=
  scanRunAux running entries 0 []

/-- The matching files among a list of scan entries, in discovery order:
what an uncancelled scan accumulates. -/
def scanMatches (entries : List ScanEntry) : List String :=
  entries.filterMap fun e => if e.isFile ∧ e.readable then some e.path else none

/-! ## The snippet locator (`ast_utils.py`) -/

/-- A Python AST node as far as `FindFunctionOrClass` observes it:
function, async-function and class definitions carry their name and the
1-based `lineno`/`end_lineno` span and a body; every other node kind is
`other` with its child nodes in document order. -/
inductive PyNode where
  | functionDef (name : String) (lineno endLineno : Nat) (body : List PyNode)
  | asyncFunctionDef (name : String) (lineno endLineno : Nat) (body : List PyNode)
  | classDef (name : String) (lineno endLineno : Nat) (body : List PyNode)
  | other (children : List PyNode)

/-- Does `FindFunctionOrClass._visit_definition` consider this node a
definition whose name matches the target? -/
def isTargetDef (target : String) : PyNode → Bool
  | .functionDef name _ _ _ => name = target
  | .asyncFunctionDef name _ _ _ => name = target
  | .classDef name _ _ _ => name = target
  | .other _ => false

mutual

/-- The `FindFunctionOrClass` visitor (ast_utils.py lines 11-63) on one
node.  `st` is the visitor state (`self.node`, with `self.found = st.isSome`).
For a definition node, `_visit_definition` records the node when nothing
was found yet and the name matches, and calls `generic_visit` on the
node (descending into its children) only while nothing has been found;
for any other node the default `generic_visit` descends
unconditionally, but with `self.found` set no further assignment can
happen. -/
def visitNode (target : String) (st : Option PyNode) : PyNode → Option PyNode
  | .functionDef name l e body =>
    match st with
    | some _ => st
    | none =>
      if name = target then some (.functionDef name l e body)
      else visitList target none body
  | .asyncFunctionDef name l e body =>
    match st with
    | some _ => st
    | none =>
      if name = target then some (.asyncFunctionDef name l e body)
      else visitList target none body
  | .classDef name l e body =>
    match st with
    | some _ => st
    | none =>
      if name = target then some (.classDef name l e body)
      else visitList target none body
  | .other children => visitList target st children

/-- The visitor over a list of sibling nodes in document order. -/
def visitList (target : String) (st : Option PyNode) : List PyNode → Option PyNode
  | [] => st
  | n :: rest => visitList target (visitNode target st n) rest

end

/-- `ast_utils.find_ast_node` (ast_utils.py lines 65-108) on an already
parsed module (parsing itself is the Python parser, a collaborator):
run the `FindFunctionOrClass` visitor over the module body with empty
state and return the recorded node. -/
def find_ast_node (module : List PyNode) (target : String) : Option PyNode :=
  visitList target none module

mutual

/-- Depth-first, left-to-right (document-order) listing of all nodes of
a subtree, the node itself first. -/
def preorderNode : PyNode → List PyNode
  | .functionDef n l e body => .functionDef n l e body :: preorderList body
  | .asyncFunctionDef n l e body => .asyncFunctionDef n l e body :: preorderList body
  | .classDef n l e body => .classDef n l e body :: preorderList body
  | .other children => .other children :: preorderList children

/-- Document-order listing of a forest of subtrees. -/
def preorderList : List PyNode → List PyNode
  | [] => []
  | n :: rest => preorderNode n ++ preorderList rest

end

/-- The `lineno` of a definition node, if any (used to tell concrete
nodes apart in counterexamples). -/
def pyLineno : Option PyNode → Option Nat
  | some (.functionDef _ l _ _) => some l
  | some (.asyncFunctionDef _ l _ _) => some l
  | some (.classDef _ l _ _) => some l
  | some (.other _) => none
  | none => none

/-! ## Helper lemmas -/

/-- `backup_and_redo` never touches the original file itself: it only
moves and overwrites the central `.bak` and `.redo` slots. -/
theorem backup_and_redo_file (s : VState) : (backup_and_redo s).1.file = s.file := by
  obtain ⟨f, b, r⟩ := s
  cases r <;> cases f <;> rfl

/-! ## C1: undo/redo round trip -/

/-- Claim C1, counterexample.  Start from a file holding `"a"` with no
backup and no redo slot, snapshot, then write `"b"`.  The claim says the
subsequent undo leaves the file holding `"a"` with the redo slot holding
`"b"`; in fact the snapshot populated only the redo slot (with `"a"`),
so `undo_change` finds no central `.bak` file, reports "Undo
Unavailable", and leaves the file holding `"b"` and the redo slot
holding `"a"`. -/
theorem undo_after_first_snapshot_counterexample :
    ("a" : String) ≠ "b" ∧
    writeFile (backup_and_redo ⟨some "a", none, none⟩).1 "b" = ⟨some "b", none, some "a"⟩ ∧
    ¬ ((undo_change (writeFile (backup_and_redo ⟨some "a", none, none⟩).1 "b")).file = some "a" ∧
      (undo_change (writeFile (backup_and_redo ⟨some "a", none, none⟩).1 "b")).redo = some "b") ∧
    (undo_change (writeFile (backup_and_redo ⟨some "a", none, none⟩).1 "b")).file = some "b" := by
  decide

/-- Claim C1, amended.  For every content pair `(A, B)`, starting from a
file holding `A` with no backup and no redo slot: snapshot followed by
writing `B` leaves the file holding `B`, the redo slot holding `A` and
no backup slot; `undo_change` is then unavailable (no `.bak` exists) and
changes nothing; `redo_change` restores `A`, saving the pre-redo content
`B` into the backup slot (and keeping the redo slot). -/
theorem undo_redo_after_first_snapshot (A B : String) :
    writeFile (backup_and_redo ⟨some A, none, none⟩).1 B = ⟨some B, none, some A⟩ ∧
    undo_change ⟨some B, none, some A⟩ = ⟨some B, none, some A⟩ ∧
    redo_change ⟨some B, none, some A⟩ = ⟨some A, some B, some A⟩ :=
  ⟨rfl, rfl, rfl⟩

/-! ## C2: snapshot rotation rule -/

/-- Claim C2, confirmed.  For every state in which the tracked file
exists with content `c`, `backup_and_redo` succeeds, leaves the file
untouched, ends with the redo slot holding the pre-snapshot on-disk
content `c`, and promotes an existing redo into the backup slot
(overwriting any previous backup); with no pre-existing redo the backup
slot is left as it was. -/
theorem snapshot_rotation (s : VState) (c : String) (h : s.file = some c) :
    (backup_and_redo s).2 = true ∧
    (backup_and_redo s).1.file = some c ∧
    (backup_and_redo s).1.redo = some c ∧
    (∀ r, s.redo = some r → (backup_and_redo s).1.bak = some r) ∧
    (s.redo = none → (backup_and_redo s).1.bak = s.bak) := by
  obtain ⟨f, b, r⟩ := s
  simp only [] at h
  subst h
  cases r <;> simp [backup_and_redo]

/-- Witness for `snapshot_rotation` at a concrete state with an existing
file, backup and redo. -/
theorem snapshot_rotation_witness :
    (⟨some "cur", some "oldbak", some "oldredo"⟩ : VState).file = some "cur" ∧
    ((backup_and_redo ⟨some "cur", some "oldbak", some "oldredo"⟩).2 = true ∧
      (backup_and_redo ⟨some "cur", some "oldbak", some "oldredo"⟩).1.file = some "cur" ∧
      (backup_and_redo ⟨some "cur", some "oldbak", some "oldredo"⟩).1.redo = some "cur" ∧
      (∀ r, (⟨some "cur", some "oldbak", some "oldredo"⟩ : VState).redo = some r →
        (backup_and_redo ⟨some "cur", some "oldbak", some "oldredo"⟩).1.bak = some r) ∧
      ((⟨some "cur", some "oldbak", some "oldredo"⟩ : VState).redo = none →
        (backup_and_redo ⟨some "cur", some "oldbak", some "oldredo"⟩).1.bak =
          (⟨some "cur", some "oldbak", some "oldredo"⟩ : VState).bak)) :=
  ⟨rfl, snapshot_rotation ⟨some "cur", some "oldbak", some "oldredo"⟩ "cur" rfl⟩

/-! ## C7: snapshot on a non-existent file -/

/-- Claim C7, counterexample.  For a non-existent file with a stale redo
slot, `backup_and_redo` is not "a no-op apart from clearing state": the
stale redo content is moved into the backup slot, overwriting the
previous backup — the backup slot is neither unchanged nor cleared. -/
theorem snapshot_missing_file_counterexample :
    (⟨none, some "oldbak", some "staleredo"⟩ : VState).file = none ∧
    backup_and_redo ⟨none, some "oldbak", some "staleredo"⟩ =
      (⟨none, some "staleredo", none⟩, true) ∧
    (backup_and_redo ⟨none, some "oldbak", some "staleredo"⟩).1.bak ≠
      (⟨none, some "oldbak", some "staleredo"⟩ : VState).bak ∧
    (backup_and_redo ⟨none, some "oldbak", some "staleredo"⟩).1.bak ≠ none := by
  decide

/-- Claim C7, amended.  For every path that does not exist on disk,
snapshot returns success without copying the file (there is nothing to
copy), and afterwards no redo slot is populated — a stale redo slot is
cleared by being promoted into the backup slot, overwriting any
previous backup (with no stale redo, the backup slot is untouched). -/
theorem snapshot_missing_file (s : VState) (h : s.file = none) :
    (backup_and_redo s).2 = true ∧
    (backup_and_redo s).1.redo = none ∧
    (backup_and_redo s).1.file = none ∧
    (backup_and_redo s).1.bak = (match s.redo with | some r => some r | none => s.bak) := by
  obtain ⟨f, b, r⟩ := s
  simp only [] at h
  subst h
  cases r <;> simp [backup_and_redo]

/-- Witness for `snapshot_missing_file` at a concrete state with a
stale redo slot. -/
theorem snapshot_missing_file_witness :
    (⟨none, some "x", some "y"⟩ : VState).file = none ∧
    ((backup_and_redo ⟨none, some "x", some "y"⟩).2 = true ∧
      (backup_and_redo ⟨none, some "x", some "y"⟩).1.redo = none ∧
      (backup_and_redo ⟨none, some "x", some "y"⟩).1.file = none ∧
      (backup_and_redo ⟨none, some "x", some "y"⟩).1.bak =
        (match (⟨none, some "x", some "y"⟩ : VState).redo with
          | some r => some r
          | none => (⟨none, some "x", some "y"⟩ : VState).bak)) :=
  ⟨rfl, snapshot_missing_file ⟨none, some "x", some "y"⟩ rfl⟩

/-! ## C3: patch apply bounds re-check -/

/-- Claim C3, confirmed.  For every pending patch, `apply_snippet_patch`
re-reads the target file's current lines; when `start_line` is negative,
`end_line` exceeds the freshly-read line count, or the range is
inverted, it fails with the Patch Index Error, discards the pending
patch, and writes nothing to the target file (the file's content is
exactly what was just read). -/
theorem apply_patch_bounds_recheck (linesep : String) (st : AppState) (p : PendingPatch)
    (content : String) (hp : st.pending = some p) (hf : st.fs.file = some content)
    (hbad : p.start_line < 0 ∨ (((readlines content).length : Int) < p.end_line ∨
      p.end_line < p.start_line)) :
    (apply_snippet_patch linesep st).2 = .patchIndexError ∧
    (apply_snippet_patch linesep st).1.fs.file = some content ∧
    (apply_snippet_patch linesep st).1.pending = none := by
  have hb : (backup_and_redo st.fs).1.file = some content := by
    rw [backup_and_redo_file, hf]
  simp only [apply_snippet_patch, hp, hb]
  rw [if_pos hbad]
  exact ⟨rfl, hb, rfl⟩

/-- Witness for `apply_patch_bounds_recheck`: a patch planned against a
10-line file (`end_line = 10`) applied after the file was truncated to
three lines. -/
theorem apply_patch_bounds_recheck_witness :
    ((⟨⟨some "a\nb\nc\n", none, none⟩, some ⟨2, 10, ["z"]⟩⟩ : AppState).pending =
        some ⟨2, 10, ["z"]⟩ ∧
      (⟨⟨some "a\nb\nc\n", none, none⟩, some ⟨2, 10, ["z"]⟩⟩ : AppState).fs.file =
        some "a\nb\nc\n" ∧
      ((2 : Int) < 0 ∨ (((readlines "a\nb\nc\n").length : Int) < 10 ∨ (10 : Int) < 2))) ∧
    ((apply_snippet_patch "\n" ⟨⟨some "a\nb\nc\n", none, none⟩, some ⟨2, 10, ["z"]⟩⟩).2 =
        .patchIndexError ∧
      (apply_snippet_patch "\n" ⟨⟨some "a\nb\nc\n", none, none⟩, some ⟨2, 10, ["z"]⟩⟩).1.fs.file =
        some "a\nb\nc\n" ∧
      (apply_snippet_patch "\n" ⟨⟨some "a\nb\nc\n", none, none⟩, some ⟨2, 10, ["z"]⟩⟩).1.pending =
        none) :=
  ⟨⟨rfl, rfl, by decide⟩,
    apply_patch_bounds_recheck "\n" _ _ "a\nb\nc\n" rfl rfl (by decide)⟩

/-! ## C5: patch splice correctness -/

/-- Claim C5, confirmed.  For every pending patch whose line range
passes the apply-time bounds check, the content written to the target
file is the concatenation of the freshly-read raw lines before
`start_line`, the replacement lines each terminated by the platform
line separator, and the freshly-read raw lines from `end_line` onward:
`lines[0:start] ++ snippetWithLinesep ++ lines[end:]`. -/
theorem apply_patch_splice (linesep : String) (st : AppState) (p : PendingPatch)
    (content : String) (hp : st.pending = some p) (hf : st.fs.file = some content)
    (h0 : 0 ≤ p.start_line) (h1 : p.end_line ≤ ((readlines content).length : Int))
    (h2 : p.start_line ≤ p.end_line) :
    (apply_snippet_patch linesep st).2 = .success ∧
    (apply_snippet_patch linesep st).1.fs.file =
      some (String.join ((readlines content).take p.start_line.toNat ++
        p.snippet_lines.map (fun l => l ++ linesep) ++
        (readlines content).drop p.end_line.toNat)) := by
  have hb : (backup_and_redo st.fs).1.file = some content := by
    rw [backup_and_redo_file, hf]
  have hcond : ¬ (p.start_line < 0 ∨ (((readlines content).length : Int) < p.end_line ∨
      p.end_line < p.start_line)) := by omega
  simp only [apply_snippet_patch, hp, hb]
  rw [if_neg hcond]
  exact ⟨rfl, rfl⟩

/-- Witness for `apply_patch_splice`: replacing line 1 (0-based,
exclusive end 2) of a two-line file by the single line `"X"`. -/
theorem apply_patch_splice_witness :
    ((⟨⟨some "a\nb\n", none, none⟩, some ⟨1, 2, ["X"]⟩⟩ : AppState).pending =
        some ⟨1, 2, ["X"]⟩ ∧
      (⟨⟨some "a\nb\n", none, none⟩, some ⟨1, 2, ["X"]⟩⟩ : AppState).fs.file = some "a\nb\n" ∧
      (0 : Int) ≤ 1 ∧ (2 : Int) ≤ ((readlines "a\nb\n").length : Int) ∧ (1 : Int) ≤ 2) ∧
    ((apply_snippet_patch "\n" ⟨⟨some "a\nb\n", none, none⟩, some ⟨1, 2, ["X"]⟩⟩).2 =
        .success ∧
      (apply_snippet_patch "\n" ⟨⟨some "a\nb\n", none, none⟩, some ⟨1, 2, ["X"]⟩⟩).1.fs.file =
        some (String.join ((readlines "a\nb\n").take (Int.toNat 1) ++
          ["X"].map (fun l => l ++ "\n") ++ (readlines "a\nb\n").drop (Int.toNat 2)))) ∧
    String.join ((readlines "a\nb\n").take (Int.toNat 1) ++
      ["X"].map (fun l => l ++ "\n") ++ (readlines "a\nb\n").drop (Int.toNat 2)) = "a\nX\n" :=
  ⟨⟨rfl, rfl, by decide, by decide, by decide⟩,
    apply_patch_splice "\n" _ _ "a\nb\n" rfl rfl (by decide) (by decide) (by decide),
    by decide⟩

/-! ## C4: formatter-failure retention -/

/-- Claim C4, counterexample.  File content `"x = 1\n"`, literal
find/replace `"x" → "y"`, Black failing.  The content after the
find/replace step is `"y = 1\n"`, the failure is reported as a format
warning — but the final content for the file is the *preprocessed*
text `"y = 1"` (the cleaning step stripped the trailing newline), not
the pre-formatter content `"y = 1\n"`: the pre-formatter content is not
retained unchanged. -/
theorem formatter_failure_retention_counterexample :
    (replaceStep (fun _ _ _ => .error "e") "x" "y" false "x = 1\n").1 = "y = 1\n" ∧
    (processFile (fun _ => .error "boom") (fun _ _ _ => .error "e") (fun _ _ => "d")
        "x" "y" false "a.py" ⟨some "x = 1\n", none, none⟩).errors =
      ["[Format Warning] a.py: Preprocessing/Black formatting failed: boom"] ∧
    (processFile (fun _ => .error "boom") (fun _ _ _ => .error "e") (fun _ _ => "d")
        "x" "y" false "a.py" ⟨some "x = 1\n", none, none⟩).vstate.file = some "y = 1" ∧
    ("y = 1" : String) ≠ "y = 1\n" := by
  refine ⟨by decide, by decide, by decide, by decide⟩

/-- Claim C4, amended.  For every file whose Black invocation fails, the
failure is reported as a non-fatal `[Format Warning]` emission and the
*preprocessed* content — the post-find/replace content after chat-paste
cleaning and indentation normalisation — is retained as that file's
final content: when it differs from the original it is still written
(so a successful find/replace is still saved, modulo preprocessing),
and when it equals the original nothing is written. -/
theorem formatter_failure_preprocessed_retention
    (black : String → Except String String)
    (regexSub : String → String → String → Except String String)
    (diffFn : String → String → String)
    (pattern replacement : String) (useRegex : Bool) (fileName : String)
    (s : VState) (original e : String)
    (h : s.file = some original)
    (hne : pyStrip (normalize_indentation (clean_chat_paste
      (replaceStep regexSub pattern replacement useRegex original).1)) ≠ "")
    (hfail : black (normalize_indentation (clean_chat_paste
      (replaceStep regexSub pattern replacement useRegex original).1)) = .error e) :
    ("[Format Warning] " ++ fileName ++ ": Preprocessing/Black formatting failed: " ++ e)
      ∈ (processFile black regexSub diffFn pattern replacement useRegex fileName s).errors ∧
    (original ≠ normalize_indentation (clean_chat_paste
        (replaceStep regexSub pattern replacement useRegex original).1) →
      (processFile black regexSub diffFn pattern replacement useRegex fileName s).vstate.file =
        some (normalize_indentation (clean_chat_paste
          (replaceStep regexSub pattern replacement useRegex original).1)) ∧
      (processFile black regexSub diffFn pattern replacement useRegex fileName s).wrote =
        true) ∧
    (original = normalize_indentation (clean_chat_paste
        (replaceStep regexSub pattern replacement useRegex original).1) →
      (processFile black regexSub diffFn pattern replacement useRegex fileName s).vstate = s ∧
      (processFile black regexSub diffFn pattern replacement useRegex fileName s).wrote =
        false) := by
  rcases hrp : replaceStep regexSub pattern replacement useRegex original with ⟨m, re⟩
  rw [hrp] at hne hfail
  dsimp only at hne hfail ⊢
  have hq : preprocess_and_format_with_black black m =
      (normalize_indentation (clean_chat_paste m), some e) := by
    simp only [preprocess_and_format_with_black]
    rw [if_neg hne, hfail]
  have hPF : processFile black regexSub diffFn pattern replacement useRegex fileName s =
      processFormatted diffFn fileName original re
        (normalize_indentation (clean_chat_paste m)) (some e) s := by
    simp only [processFile, h, hrp, hq]
  rw [hPF]
  by_cases hor : original = normalize_indentation (clean_chat_paste m) <;>
    cases re <;>
      simp [processFormatted, writeFile, hor]

/-- Witness for `formatter_failure_preprocessed_retention`: the
counterexample configuration of C4, where the preprocessed content
`"y = 1"` differs from the original and is written. -/
theorem formatter_failure_preprocessed_retention_witness :
    ((⟨some "x = 1\n", none, none⟩ : VState).file = some "x = 1\n" ∧
      pyStrip (normalize_indentation (clean_chat_paste
        (replaceStep (fun _ _ _ => .error "e") "x" "y" false "x = 1\n").1)) ≠ "" ∧
      (fun _ => (.error "boom" : Except String String))
          (normalize_indentation (clean_chat_paste
            (replaceStep (fun _ _ _ => .error "e") "x" "y" false "x = 1\n").1)) =
        .error "boom") ∧
    (("[Format Warning] " ++ "a.py" ++ ": Preprocessing/Black formatting failed: " ++ "boom")
        ∈ (processFile (fun _ => .error "boom") (fun _ _ _ => .error "e") (fun _ _ => "d")
          "x" "y" false "a.py" ⟨some "x = 1\n", none, none⟩).errors ∧
      ("x = 1\n" ≠ normalize_indentation (clean_chat_paste
          (replaceStep (fun _ _ _ => .error "e") "x" "y" false "x = 1\n").1) →
        (processFile (fun _ => .error "boom") (fun _ _ _ => .error "e") (fun _ _ => "d")
            "x" "y" false "a.py" ⟨some "x = 1\n", none, none⟩).vstate.file =
          some (normalize_indentation (clean_chat_paste
            (replaceStep (fun _ _ _ => .error "e") "x" "y" false "x = 1\n").1)) ∧
        (processFile (fun _ => .error "boom") (fun _ _ _ => .error "e") (fun _ _ => "d")
            "x" "y" false "a.py" ⟨some "x = 1\n", none, none⟩).wrote = true) ∧
      ("x = 1\n" = normalize_indentation (clean_chat_paste
          (replaceStep (fun _ _ _ => .error "e") "x" "y" false "x = 1\n").1) →
        (processFile (fun _ => .error "boom") (fun _ _ _ => .error "e") (fun _ _ => "d")
            "x" "y" false "a.py" ⟨some "x = 1\n", none, none⟩).vstate =
          ⟨some "x = 1\n", none, none⟩ ∧
        (processFile (fun _ => .error "boom") (fun _ _ _ => .error "e") (fun _ _ => "d")
            "x" "y" false "a.py" ⟨some "x = 1\n", none, none⟩).wrote = false)) :=
  ⟨⟨rfl, by decide, rfl⟩,
    formatter_failure_preprocessed_retention (fun _ => .error "boom")
      (fun _ _ _ => .error "e") (fun _ _ => "d") "x" "y" false "a.py"
      ⟨some "x = 1\n", none, none⟩ "x = 1\n" "boom" rfl (by decide) rfl⟩

/-! ## C8: replace-pipeline change detection -/

/-- Claim C8, counterexample.  A file whose content after find/replace
and formatting equals the originally read content, but where the regex
pattern was invalid: no snapshot and no write occur, yet the emitted
progress record is the replace-error message with an appended
no-effective-change note, not the `[No change]` informational
message. -/
theorem no_change_message_counterexample :
    (preprocess_and_format_with_black (fun _ => Except.ok "x = 1")
        (replaceStep (fun _ _ _ => .error "unbalanced") "(" "y" true "x = 1").1).1 =
      "x = 1" ∧
    (processFile (fun _ => Except.ok "x = 1") (fun _ _ _ => .error "unbalanced")
        (fun _ _ => "d") "(" "y" true "b.py" ⟨some "x = 1", none, none⟩).vstate =
      ⟨some "x = 1", none, none⟩ ∧
    (processFile (fun _ => Except.ok "x = 1") (fun _ _ _ => .error "unbalanced")
        (fun _ _ => "d") "(" "y" true "b.py" ⟨some "x = 1", none, none⟩).wrote = false ∧
    (processFile (fun _ => Except.ok "x = 1") (fun _ _ _ => .error "unbalanced")
        (fun _ _ => "d") "(" "y" true "b.py" ⟨some "x = 1", none, none⟩).message =
      "[Replace Error] b.py: Invalid regex pattern: unbalanced" ++
        "\n[Info] No effective change for b.py despite previous warnings." ∧
    (processFile (fun _ => Except.ok "x = 1") (fun _ _ _ => .error "unbalanced")
        (fun _ _ => "d") "(" "y" true "b.py" ⟨some "x = 1", none, none⟩).message ≠
      "[No change] b.py" := by
  refine ⟨by decide, by decide, by decide, by decide, by decide⟩

/-- Claim C8, amended.  For every processed file whose content after
find/replace and formatting is exactly equal to the originally read
content, no snapshot is taken and no write occurs (the backup and redo
slots and the file itself are all unchanged), and — provided no replace
error and no format warning occurred for that file — the progress
record emitted for it is the `[No change]` informational message. -/
theorem no_change_frame
    (black : String → Except String String)
    (regexSub : String → String → String → Except String String)
    (diffFn : String → String → String)
    (pattern replacement : String) (useRegex : Bool) (fileName : String)
    (s : VState) (original : String)
    (h : s.file = some original)
    (hfinal : (preprocess_and_format_with_black black
      (replaceStep regexSub pattern replacement useRegex original).1).1 = original) :
    (processFile black regexSub diffFn pattern replacement useRegex fileName s).vstate = s ∧
    (processFile black regexSub diffFn pattern replacement useRegex fileName s).wrote =
      false ∧
    ((replaceStep regexSub pattern replacement useRegex original).2 = none →
      (preprocess_and_format_with_black black
        (replaceStep regexSub pattern replacement useRegex original).1).2 = none →
      (processFile black regexSub diffFn pattern replacement useRegex fileName s).message =
        "[No change] " ++ fileName) := by
  rcases hrp : replaceStep regexSub pattern replacement useRegex original with ⟨m, re⟩
  rw [hrp] at hfinal
  dsimp only at hfinal ⊢
  have hPF : processFile black regexSub diffFn pattern replacement useRegex fileName s =
      processFormatted diffFn fileName original re
        (preprocess_and_format_with_black black m).1
        (preprocess_and_format_with_black black m).2 s := by
    simp only [processFile, h, hrp]
  rw [hfinal] at hPF
  rw [hPF]
  rcases hfe : (preprocess_and_format_with_black black m).2 with _ | e2 <;>
    cases re <;>
      simp [processFormatted, hfe]

/-- Witness for `no_change_frame`: format-only mode with an identity
Black collaborator on content Black leaves unchanged. -/
theorem no_change_frame_witness :
    ((⟨some "x = 1", some "bb", some "rr"⟩ : VState).file = some "x = 1" ∧
      (preprocess_and_format_with_black (fun t => Except.ok t)
        (replaceStep (fun _ _ _ => .error "z") "" "y" false "x = 1").1).1 = "x = 1") ∧
    ((processFile (fun t => Except.ok t) (fun _ _ _ => .error "z") (fun _ _ => "d")
        "" "y" false "c.py" ⟨some "x = 1", some "bb", some "rr"⟩).vstate =
      ⟨some "x = 1", some "bb", some "rr"⟩ ∧
    (processFile (fun t => Except.ok t) (fun _ _ _ => .error "z") (fun _ _ => "d")
        "" "y" false "c.py" ⟨some "x = 1", some "bb", some "rr"⟩).wrote = false ∧
    ((replaceStep (fun _ _ _ => .error "z") "" "y" false "x = 1").2 = none →
      (preprocess_and_format_with_black (fun t => Except.ok t)
        (replaceStep (fun _ _ _ => .error "z") "" "y" false "x = 1").1).2 = none →
      (processFile (fun t => Except.ok t) (fun _ _ _ => .error "z") (fun _ _ => "d")
          "" "y" false "c.py" ⟨some "x = 1", some "bb", some "rr"⟩).message =
        "[No change] " ++ "c.py")) :=
  ⟨⟨rfl, by decide⟩,
    no_change_frame (fun t => Except.ok t) (fun _ _ _ => .error "z") (fun _ _ => "d")
      "" "y" false "c.py" ⟨some "x = 1", some "bb", some "rr"⟩ "x = 1" rfl (by decide)⟩

/-! ## C10: empty-pattern replace is skipped -/

/-- Claim C10, confirmed.  With an empty find pattern (format-only
mode), the substitution step of the replace pipeline is skipped
entirely: the content handed to the formatting step is exactly the
content read from the file with no replace error, and the outcome of
processing a file is independent of the regex collaborator, the
replacement string and the regex flag. -/
theorem empty_pattern_skips_replace
    (black : String → Except String String)
    (regexSub regexSub' : String → String → String → Except String String)
    (diffFn : String → String → String)
    (replacement replacement' : String) (useRegex useRegex' : Bool)
    (fileName : String) (s : VState) (original : String) :
    replaceStep regexSub "" replacement useRegex original = (original, none) ∧
    processFile black regexSub diffFn "" replacement useRegex fileName s =
      processFile black regexSub' diffFn "" replacement' useRegex' fileName s := by
  have hr : ∀ (rs : String → String → String → Except String String) (rep : String)
      (ur : Bool) (o : String), replaceStep rs "" rep ur o = (o, none) := by
    intro rs rep ur o
    simp [replaceStep]
  refine ⟨hr _ _ _ _, ?_⟩
  obtain ⟨f, b, r⟩ := s
  cases f with
  | none => rfl
  | some orig => simp [processFile, hr]

/-! ## C9: scan cancellation partial results -/

/-- Helper: with the cooperative flag reading `true` exactly for loop
checks at indices below `K`, the scan loop starting at index `i`
appends to its accumulator the matches among the next `K - i` entries
and stops. -/
theorem scanRunAux_take (K : Nat) :
    ∀ (l : List ScanEntry) (i : Nat) (acc : List String),
      scanRunAux (fun j => decide (j < K)) l i acc =
        acc ++ scanMatches (l.take (K - i))
  | [], i, acc => by simp [scanRunAux, scanMatches]
  | e :: rest, i, acc => by
    by_cases hi : i < K
    · have hk : K - i = (K - (i + 1)) + 1 := by omega
      rw [hk]
      by_cases he : e.isFile ∧ e.readable <;>
        simp [scanRunAux, scanMatches, hi, he, scanRunAux_take K rest (i + 1)]
    · have hk : K - i = 0 := by omega
      simp [scanRunAux, scanMatches, hi, hk]

/-- Claim C9, confirmed.  A scan whose cooperative cancellation flag is
cleared before the check at loop index `K` still emits a result: the
list of exactly the (file, readable) entries discovered strictly before
the cancellation check took effect, in discovery order.  That list,
followed by the matches among the remaining entries, is the full
uncancelled result, so the emitted list is a prefix of the full result
and never longer than it. -/
theorem scan_cancellation_partial_results (K : Nat) (entries : List ScanEntry) :
    fileLoaderRun (fun i => decide (i < K)) entries = scanMatches (entries.take K) ∧
    scanMatches entries = scanMatches (entries.take K) ++ scanMatches (entries.drop K) ∧
    (scanMatches (entries.take K)).length ≤ (scanMatches entries).length := by
  have h2 : scanMatches entries =
      scanMatches (entries.take K) ++ scanMatches (entries.drop K) := by
    simp only [scanMatches]
    rw [← List.filterMap_append, List.take_append_drop]
  refine ⟨?_, h2, ?_⟩
  · rw [fileLoaderRun, scanRunAux_take K entries 0 []]
    simp
  · rw [h2]
    simp

/-! ## C6: snippet locator first-match -/

mutual

/-- Once the visitor has recorded a node, visiting any further node
changes nothing: `self.found` suppresses both the assignment and the
descent into definition bodies, and descent into other nodes cannot
record anything either. -/
theorem visitNode_found (target : String) (m : PyNode) :
    ∀ n : PyNode, visitNode target (some m) n = some m
  | .functionDef _ _ _ _ => by rw [visitNode]
  | .asyncFunctionDef _ _ _ _ => by rw [visitNode]
  | .classDef _ _ _ _ => by rw [visitNode]
  | .other children => by
    rw [visitNode]
    exact visitList_found target m children

/-- Once the visitor has recorded a node, visiting any further sibling
list changes nothing. -/
theorem visitList_found (target : String) (m : PyNode) :
    ∀ l : List PyNode, visitList target (some m) l = some m
  | [] => by rw [visitList]
  | n :: rest => by
    rw [visitList, visitNode_found target m n]
    exact visitList_found target m rest

end

mutual

/-- With nothing recorded yet, the visitor on one node returns the
first matching definition of that node's subtree in document order
(depth-first preorder). -/
theorem visitNode_none (target : String) :
    ∀ n : PyNode, visitNode target none n = (preorderNode n).find? (isTargetDef target)
  | .functionDef name l e body => by
    by_cases hn : name = target <;>
      simp [visitNode, preorderNode, isTargetDef, hn, List.find?_cons,
        visitList_none target body]
  | .asyncFunctionDef name l e body => by
    by_cases hn : name = target <;>
      simp [visitNode, preorderNode, isTargetDef, hn, List.find?_cons,
        visitList_none target body]
  | .classDef name l e body => by
    by_cases hn : name = target <;>
      simp [visitNode, preorderNode, isTargetDef, hn, List.find?_cons,
        visitList_none target body]
  | .other children => by
    simp [visitNode, preorderNode, isTargetDef, List.find?_cons,
      visitList_none target children]

/-- With nothing recorded yet, the visitor over a sibling list returns
the first matching definition among the document-order listing of all
their subtrees. -/
theorem visitList_none (target : String) :
    ∀ l : List PyNode, visitList target none l = (preorderList l).find? (isTargetDef target)
  | [] => by simp [visitList, preorderList]
  | n :: rest => by
    rw [visitList, preorderList, List.find?_append, ← visitNode_none target n]
    cases hv : visitNode target none n with
    | some m =>
      rw [visitList_found target m rest]
      rfl
    | none =>
      rw [visitList_none target rest]
      rfl

end

/-- Claim C6, counterexample.  In a module corresponding to
```
def g():          # line 1
    def f():      # line 2
        pass
def f():          # line 4
    pass
```
the first matching *top-level* definition named `f` is the one at line
4, but `find_ast_node` returns the nested definition at line 2: the
visitor descends into the non-matching `g` and records the nested `f`
first, so the result is not the first matching top-level definition. -/
theorem locator_nested_shadowing_counterexample :
    pyLineno (find_ast_node
      [.functionDef "g" 1 3 [.functionDef "f" 2 3 []], .functionDef "f" 4 5 []] "f") =
      some 2 ∧
    pyLineno (List.find? (isTargetDef "f")
      [.functionDef "g" 1 3 [.functionDef "f" 2 3 []], .functionDef "f" 4 5 []]) =
      some 4 ∧
    (2 : Nat) ≠ 4 :=
  ⟨rfl, rfl, by decide⟩

/-- Claim C6, amended.  For every parsed module and target name,
`find_ast_node` returns the first matching function, async-function or
class definition in depth-first document order over *all* definitions —
nested definitions included, so a nested match that is lexically
earlier wins over a later top-level one.  As a pure function of the
parsed text it returns the same node on every invocation. -/
theorem locator_first_preorder_match (module : List PyNode) (target : String) :
    find_ast_node module target = (preorderList module).find? (isTargetDef target) :=
  visitList_none target module

end CodeAssistant
